import Mathlib

/-!
Shallow embedding of the city-sim day-advance engine.

Sources embedded:
- `src/src/city/city.py` — `Pop` (cumulative `adjust_happiness` variant),
  `City` (`on_advance_day`, facility mutators), `HappinessTracker`.
- `src/src/city/population/population.py` — the reset variant of
  `Pop.adjust_happiness`.
- `src/src/city/population/happiness_tracker.py` — `HappinessTracker`.
- `src/src/simulation/sim.py` — `Sim.roll_disasters`, `Sim.roll_for_newcomers`,
  `Sim.roll_for_leavers`, `Sim.advance_day`.

Randomness model: Python's global `random` module is modelled as a state
carrying two independent streams, one of uniform draws in `[0,1)` (for
`random.random()`, modelled as rationals) and one of natural-number draws
(for `random.randint(0, 100)`, taken modulo 101).  Each call consumes the
next element of its stream.  No claim relates uniform draws to integer
draws, so two independent streams are a faithful abstraction of the single
global generator.
-/

/-- The global random state: a stream of uniform draws in `[0,1)` with a
cursor, and a stream of integer draws with a cursor. -/
structure RandSt where
  uniform : ℕ → ℚ
  u : ℕ
  intDraw : ℕ → ℕ
  i : ℕ

/-- One call of `random.random()`: return the next uniform draw and advance. -/
def nextU (r : RandSt) : ℚ × RandSt :=
  (r.uniform r.u, { r with u := r.u + 1 })

/-- One call of `random.randint(0, 100)`: return the next integer draw
reduced into `[0,100]` and advance. -/
def nextInt (r : RandSt) : ℕ × RandSt :=
  (r.intDraw r.i % 101, { r with i := r.i + 1 })

/-- A citizen (`Pop` in both `city.py` and `population.py`; the two classes
have identical fields). -/
structure Pop where
  overall_happiness : ℤ
  water_received : Bool
  electricity_received : Bool
  has_home : Bool
  property : Option Unit
  entertained : Bool
  sick : Bool
  garbage_collected : Bool
  electricity_consumption : ℕ
  water_consumption : ℕ
deriving DecidableEq

/-- Embeds `Pop.__init__` from either file: all needs unmet, zero happiness, the
two consumption fields drawn with `random.randint(0, 100)` (electricity
first, as in the source). -/
def newPop (r : RandSt) : Pop × RandSt :=
  let (e, r) := nextInt r
  let (w, r) := nextInt r
  (⟨0, false, false, false, none, false, false, false, e, w⟩, r)

/-- Embeds `Pop.adjust_happiness` from `src/src/city/city.py` (the variant used by
`City.on_advance_day`): adds the five need weights to the *current*
happiness (no reset), then draws once; if the draw is below `0.01` the pop
becomes sick and loses 15 more. -/
def adjust_happiness_city (p : Pop) (r : RandSt) : Pop × RandSt :=
  let h := p.overall_happiness
  let h := if p.water_received then h + 10 else h - 10
  let h := if p.electricity_received then h + 10 else h - 10
  let h := if p.has_home then h + 10 else h - 10
  let h := if p.entertained then h + 5 else h - 5
  let h := if p.garbage_collected then h + 5 else h - 5
  let (d, r) := nextU r
  if d < mkRat 1 100 then
    ({ p with sick := true, overall_happiness := h - 15 }, r)
  else
    ({ p with overall_happiness := h }, r)

/-- Embeds `Pop.adjust_happiness` from `src/src/city/population/population.py` (the
reset variant): sets happiness to 0 first, then proceeds identically. -/
def adjust_happiness_population (p : Pop) (r : RandSt) : Pop × RandSt :=
  let h : ℤ := 0
  let h := if p.water_received then h + 10 else h - 10
  let h := if p.electricity_received then h + 10 else h - 10
  let h := if p.has_home then h + 10 else h - 10
  let h := if p.entertained then h + 5 else h - 5
  let h := if p.garbage_collected then h + 5 else h - 5
  let (d, r) := nextU r
  if d < mkRat 1 100 then
    ({ p with sick := true, overall_happiness := h - 15 }, r)
  else
    ({ p with overall_happiness := h }, r)

/-- The sum of the five need weights for a needs-state (the §4.1 weight
table, derived from the source's five if/else blocks). -/
def needsWeight (p : Pop) : ℤ :=
  (if p.water_received then 10 else -10)
    + (if p.electricity_received then 10 else -10)
    + (if p.has_home then 10 else -10)
    + (if p.entertained then 5 else -5)
    + (if p.garbage_collected then 5 else -5)

/-- Embeds `HappinessTracker` (identical in `city.py` and
`population/happiness_tracker.py`): holds the last computed average. -/
structure HappinessTracker where
  average_happiness : ℚ
deriving DecidableEq

/-- Embeds `HappinessTracker.update_happiness`: mean of the pops' happiness, `0`
for an empty population (the `if population else 0` guard). -/
def update_happiness (pops : List Pop) : HappinessTracker :=
  ⟨if pops.isEmpty then 0
   else ((pops.map (fun p => (p.overall_happiness : ℚ))).sum) / pops.length⟩

/-- Embeds `HappinessTracker.get_average_happiness`: returns the stored value, no
recomputation. -/
def get_average_happiness (t : HappinessTracker) : ℚ :=
  t.average_happiness

/-- Embeds `City` from `src/src/city/city.py`: a population list, the owned
happiness tracker, and the three infrastructure counters. -/
structure City where
  population : List Pop
  happiness_tracker : HappinessTracker
  water_facilities : ℕ
  electricity_facilities : ℕ
  housing_units : ℕ
deriving DecidableEq

/-- Embeds `for person in population[:n]: ...` — apply `f` to the first `n` pops,
leave the rest unchanged. -/
def serve : List Pop → ℕ → (Pop → Pop) → List Pop
  | [], _, _ => []
  | p :: ps, 0, _ => p :: ps
  | p :: ps, n + 1, f => f p :: serve ps n f

/-- Embeds `for person in population: person.adjust_happiness()` with the
`city.py` variant, threading the random state left to right. -/
def adjustAll : List Pop → RandSt → List Pop × RandSt
  | [], r => ([], r)
  | p :: ps, r =>
    let (p, r) := adjust_happiness_city p r
    let (ps, r) := adjustAll ps r
    (p :: ps, r)

/-- Embeds `City.on_advance_day`: serve water to the first `water_facilities * 20`
pops, electricity to the first `electricity_facilities * 20`, homes to the
first `housing_units`, then adjust every pop's happiness, then update the
tracker. -/
def on_advance_day (c : City) (r : RandSt) : City × RandSt :=
  let pops := serve c.population (c.water_facilities * 20)
      (fun p => { p with water_received := true })
  let pops := serve pops (c.electricity_facilities * 20)
      (fun p => { p with electricity_received := true })
  let pops := serve pops c.housing_units (fun p => { p with has_home := true })
  let (pops, r) := adjustAll pops r
  ({ c with population := pops, happiness_tracker := update_happiness pops }, r)

/-- Embeds `City.add_water_facilities`: raises `ValueError` on a negative argument,
otherwise adds it to the counter. -/
def add_water_facilities (c : City) (n : ℤ) : Except String City :=
  if n < 0 then .error "No Negative Numbers"
  else .ok { c with water_facilities := c.water_facilities + n.toNat }

/-- Embeds `City.add_electricity_facilities`. -/
def add_electricity_facilities (c : City) (n : ℤ) : Except String City :=
  if n < 0 then .error "No Negative Numbers"
  else .ok { c with electricity_facilities := c.electricity_facilities + n.toNat }

/-- Embeds `City.add_housing_units`. -/
def add_housing_units (c : City) (n : ℤ) : Except String City :=
  if n < 0 then .error "No Negative Numbers"
  else .ok { c with housing_units := c.housing_units + n.toNat }

/-- Embeds `Sim.roll_disasters`: one draw; below `0.01` every pop loses 50
happiness, else nothing. -/
def roll_disasters (c : City) (r : RandSt) : City × RandSt :=
  let (d, r) := nextU r
  if d < mkRat 1 100 then
    let pops := c.population.map
      (fun p => { p with overall_happiness := p.overall_happiness - 50 })
    ({ c with population := pops }, r)
  else (c, r)

/-- Embeds `for _ in range(n): population.append(Pop())` — build `n` fresh pops in
order, threading the random state. -/
def newPops : ℕ → RandSt → List Pop × RandSt
  | 0, r => ([], r)
  | n + 1, r =>
    let (p, r) := newPop r
    let (ps, r) := newPops n r
    (p :: ps, r)

/-- Append `n` fresh pops to the city's population (the tracker is not
updated, as in the source). -/
def addNewcomers (c : City) (n : ℕ) (r : RandSt) : City × RandSt :=
  let (ps, r) := newPops n r
  ({ c with population := c.population ++ ps }, r)

/-- Embeds `Sim.roll_for_newcomers`: the `if avg >= 20 and random() < .20 / elif
avg > 10 and random() < .10 / elif avg > 0 and random() < .05` chain.  Each
branch condition draws only when its threshold holds (Python short-circuit
`and`), and a failed draw at a higher tier falls through to the next
`elif`. -/
def roll_for_newcomers (c : City) (r : RandSt) : City × RandSt :=
  let avg := get_average_happiness c.happiness_tracker
  let (b1, r1) : Bool × RandSt :=
    if 20 ≤ avg then let (d, r) := nextU r; (d < mkRat 20 100, r) else (false, r)
  if b1 then addNewcomers c 20 r1
  else
    let (b2, r2) : Bool × RandSt :=
      if 10 < avg then let (d, r) := nextU r1; (d < mkRat 10 100, r) else (false, r1)
    if b2 then addNewcomers c 10 r2
    else
      let (b3, r3) : Bool × RandSt :=
        if 0 < avg then let (d, r) := nextU r2; (d < mkRat 5 100, r) else (false, r2)
      if b3 then addNewcomers c 1 r3 else (c, r3)

/-- The per-pop body of `Sim.roll_for_leavers`: one 50% draw per unmet need
(home, then electricity, then water); `wants_to_leave` is the disjunction
of the successful draws. -/
def leaverDecision (p : Pop) (r : RandSt) : Bool × RandSt :=
  let (w1, r) : Bool × RandSt :=
    if !p.has_home then let (d, r) := nextU r; (d < mkRat 1 2, r) else (false, r)
  let (w2, r) : Bool × RandSt :=
    if !p.electricity_received then let (d, r) := nextU r; (d < mkRat 1 2, r) else (false, r)
  let (w3, r) : Bool × RandSt :=
    if !p.water_received then let (d, r) := nextU r; (d < mkRat 1 2, r) else (false, r)
  (w1 || w2 || w3, r)

/-- The loop of `Sim.roll_for_leavers`: keep, in order, the pops whose
decision is to stay. -/
def filterLeavers : List Pop → RandSt → List Pop × RandSt
  | [], r => ([], r)
  | p :: ps, r =>
    let (leave, r) := leaverDecision p r
    let (rest, r) := filterLeavers ps r
    (if leave then rest else p :: rest, r)

/-- Embeds `Sim.roll_for_leavers`: reads the *stored* average; below 0 the
population is replaced by the stay-set, otherwise nothing happens. -/
def roll_for_leavers (c : City) (r : RandSt) : City × RandSt :=
  if get_average_happiness c.happiness_tracker < 0 then
    let (stay, r) := filterLeavers c.population r
    ({ c with population := stay }, r)
  else (c, r)

/-- Embeds `Sim.advance_day`: newcomers, then leavers, then the city's daily pass,
then the disaster roll, in that order. -/
def advance_day (c : City) (r : RandSt) : City × RandSt :=
  let (c, r) := roll_for_newcomers c r
  let (c, r) := roll_for_leavers c r
  let (c, r) := on_advance_day c r
  roll_disasters c r

/-- The state reached just before the disaster roll of `Sim.advance_day`:
newcomers, then leavers, then the city's daily pass. -/
def preDisaster (c : City) (r : RandSt) : City × RandSt :=
  let (c, r) := roll_for_newcomers c r
  let (c, r) := roll_for_leavers c r
  on_advance_day c r

/-- One simulated day as a step on the combined city-and-random state. -/
def dayStep (s : City × RandSt) : City × RandSt :=
  on_advance_day s.1 s.2

/-- A random state whose uniform stream is constantly `q` and whose integer
stream is constantly `0` (used for concrete evaluations). -/
def constRand (q : ℚ) : RandSt :=
  ⟨fun _ => q, 0, fun _ => 0, 0⟩

/-- A fresh pop with every need unmet and zero happiness. -/
def pop0 : Pop :=
  ⟨0, false, false, false, none, false, false, false, 0, 0⟩

/-- Advance the uniform cursor by `k` draws without reading them. -/
def skipU (r : RandSt) (k : ℕ) : RandSt :=
  { r with u := r.u + k }

/-- Number of uniform draws `Sim.roll_for_leavers` makes for one pop: one
per unmet need among home, electricity, water. -/
def drawsNeeded (p : Pop) : ℕ :=
  (if p.has_home then 0 else 1) + (if p.electricity_received then 0 else 1)
    + (if p.water_received then 0 else 1)

/-- Spec-side description of the leaver decision (§4.4 of the spec): a pop
leaves iff at least one of its per-missing-need 50% draws succeeds, the
draws being taken in order home, electricity, water starting at cursor
`u` of the uniform stream `f`. -/
def leavesSpec (p : Pop) (f : ℕ → ℚ) (u : ℕ) : Bool :=
  (!p.has_home && decide (f u < mkRat 1 2))
    || (!p.electricity_received
          && decide (f (u + (if p.has_home then 0 else 1)) < mkRat 1 2))
    || (!p.water_received
          && decide (f (u + (if p.has_home then 0 else 1)
              + (if p.electricity_received then 0 else 1)) < mkRat 1 2))

/-- Spec-side description of the stay-set: the pops whose decision is to
stay, in their original order, each judged on its own draws. -/
def staySpec : List Pop → (ℕ → ℚ) → ℕ → List Pop
  | [], _, _ => []
  | p :: ps, f, u =>
    if leavesSpec p f u then staySpec ps f (u + drawsNeeded p)
    else p :: staySpec ps f (u + drawsNeeded p)

/-- A pop identical to a fresh one except for a prior happiness of 10. -/
def popH10 : Pop :=
  { pop0 with overall_happiness := 10 }

/-- A pop identical to a fresh one except that it already has water. -/
def popW : Pop :=
  { pop0 with water_received := true }

/-- The end-to-end scenario settlement of §8: 2 water facilities, 2
electricity facilities, 30 housing units, 50 fresh citizens. -/
def city50 : City :=
  ⟨List.replicate 50 pop0, ⟨0⟩, 2, 2, 30⟩

/-- A city whose 41st citizen (index 40) already has water while the water
capacity is `2 * 20 = 40`. -/
def city41 : City :=
  ⟨List.replicate 40 pop0 ++ [popW], ⟨0⟩, 2, 2, 30⟩

/-- A city whose stored average happiness is 25 (the tracker is stale by
design; its stored value is what `roll_for_newcomers` reads). -/
def city25 : City :=
  ⟨[], ⟨25⟩, 2, 2, 30⟩

/-- A random stream for the C2 counterexample: the first uniform draw is
`1/2` (so the 20% roll of the top tier fails) and every later one is
`1/20` (so the 10% roll of the middle tier succeeds). -/
def randFallthrough : RandSt :=
  ⟨fun k => if k = 0 then mkRat 1 2 else mkRat 1 20, 0, fun _ => 0, 0⟩

/-- An empty settlement with the source's starting infrastructure. -/
def city0 : City :=
  ⟨[], ⟨0⟩, 2, 2, 30⟩

/-- A one-citizen settlement whose stored average happiness is negative. -/
def cityNeg : City :=
  ⟨[pop0], ⟨-1⟩, 2, 2, 30⟩

/-- The pop at index `i` after the three serving passes of
`City.on_advance_day`: each flag is turned on exactly when `i` is below
the corresponding capacity, and kept as it was otherwise. -/
def servedPop (c : City) (i : ℕ) : Pop :=
  { c.population.getD i pop0 with
    water_received :=
      decide (i < c.water_facilities * 20)
        || (c.population.getD i pop0).water_received,
    electricity_received :=
      decide (i < c.electricity_facilities * 20)
        || (c.population.getD i pop0).electricity_received,
    has_home :=
      decide (i < c.housing_units)
        || (c.population.getD i pop0).has_home }

/-! ### Helper lemmas about the embedding -/

theorem skipU_zero (r : RandSt) : skipU r 0 = r := rfl

theorem skipU_skipU (r : RandSt) (a b : ℕ) :
    skipU (skipU r a) b = skipU r (a + b) := by
  simp [skipU, Nat.add_assoc]

theorem skipU_uniform (r : RandSt) (a : ℕ) :
    (skipU r a).uniform = r.uniform := rfl

theorem skipU_u (r : RandSt) (a : ℕ) : (skipU r a).u = r.u + a := rfl

theorem serve_length (ps : List Pop) (n : ℕ) (f : Pop → Pop) :
    (serve ps n f).length = ps.length := by
  induction ps generalizing n with
  | nil => simp [serve]
  | cons p ps ih =>
    cases n with
    | zero => simp [serve]
    | succ n => simp [serve, ih]

theorem serve_getD (ps : List Pop) (n : ℕ) (f : Pop → Pop) (i : ℕ)
    (h : i < ps.length) :
    (serve ps n f).getD i pop0 =
      if i < n then f (ps.getD i pop0) else ps.getD i pop0 := by
  induction ps generalizing n i with
  | nil => simp at h
  | cons p ps ih =>
    cases n with
    | zero => simp [serve]
    | succ n =>
      cases i with
      | zero => simp [serve]
      | succ i =>
        simp only [serve, List.getD_cons_succ]
        rw [ih n i (by simpa using h)]
        simp [Nat.succ_lt_succ_iff]

theorem adjust_city_happiness (p : Pop) (r : RandSt) :
    (adjust_happiness_city p r).1.overall_happiness =
      p.overall_happiness + needsWeight p
        - (if r.uniform r.u < mkRat 1 100 then 15 else 0) := by
  simp only [adjust_happiness_city, needsWeight, nextU]
  split_ifs <;> simp_all <;> try omega

theorem adjust_population_happiness (p : Pop) (r : RandSt) :
    (adjust_happiness_population p r).1.overall_happiness =
      needsWeight p - (if r.uniform r.u < mkRat 1 100 then 15 else 0) := by
  simp only [adjust_happiness_population, needsWeight, nextU]
  split_ifs <;> simp_all

theorem adjust_city_sick (p : Pop) (r : RandSt) :
    (adjust_happiness_city p r).1.sick
      = (p.sick || decide (r.uniform r.u < mkRat 1 100)) := by
  simp only [adjust_happiness_city, nextU]
  split_ifs with h <;> simp_all

theorem adjust_population_sick (p : Pop) (r : RandSt) :
    (adjust_happiness_population p r).1.sick
      = (p.sick || decide (r.uniform r.u < mkRat 1 100)) := by
  simp only [adjust_happiness_population, nextU]
  split_ifs with h <;> simp_all

theorem adjust_city_flags (p : Pop) (r : RandSt) :
    (adjust_happiness_city p r).1.water_received = p.water_received ∧
    (adjust_happiness_city p r).1.electricity_received = p.electricity_received ∧
    (adjust_happiness_city p r).1.has_home = p.has_home := by
  simp only [adjust_happiness_city, nextU]
  split_ifs <;> simp

theorem adjust_city_rand (p : Pop) (r : RandSt) :
    (adjust_happiness_city p r).2 = skipU r 1 := by
  simp only [adjust_happiness_city, nextU, skipU]
  split_ifs <;> rfl

theorem adjustAll_length (ps : List Pop) (r : RandSt) :
    (adjustAll ps r).1.length = ps.length := by
  induction ps generalizing r with
  | nil => simp [adjustAll]
  | cons p ps ih => simp [adjustAll, ih]

theorem adjustAll_getD (ps : List Pop) (r : RandSt) (i : ℕ)
    (h : i < ps.length) :
    (adjustAll ps r).1.getD i pop0 =
      (adjust_happiness_city (ps.getD i pop0) (skipU r i)).1 := by
  induction ps generalizing r i with
  | nil => simp at h
  | cons p ps ih =>
    cases i with
    | zero => simp [adjustAll, skipU_zero]
    | succ i =>
      simp only [adjustAll, List.getD_cons_succ]
      rw [adjust_city_rand]
      rw [ih (skipU r 1) i (by simpa using h)]
      rw [skipU_skipU]
      simp [Nat.add_comm]

theorem on_advance_day_length (c : City) (r : RandSt) :
    (on_advance_day c r).1.population.length = c.population.length := by
  simp [on_advance_day, adjustAll_length, serve_length]

theorem ite_update_water (p : Pop) (q : Prop) [Decidable q] :
    (if q then ({ p with water_received := true } : Pop) else p)
      = { p with water_received := (decide q || p.water_received) } := by
  split_ifs with h <;> simp [h]

theorem ite_update_elec (p : Pop) (q : Prop) [Decidable q] :
    (if q then ({ p with electricity_received := true } : Pop) else p)
      = { p with electricity_received := (decide q || p.electricity_received) } := by
  split_ifs with h <;> simp [h]

theorem ite_update_home (p : Pop) (q : Prop) [Decidable q] :
    (if q then ({ p with has_home := true } : Pop) else p)
      = { p with has_home := (decide q || p.has_home) } := by
  split_ifs with h <;> simp [h]

theorem on_advance_day_getD (c : City) (r : RandSt) (i : ℕ)
    (h : i < c.population.length) :
    (on_advance_day c r).1.population.getD i pop0 =
      (adjust_happiness_city (servedPop c i) (skipU r i)).1 := by
  simp only [on_advance_day]
  rw [adjustAll_getD _ _ i (by simpa [serve_length] using h)]
  congr 1
  rw [serve_getD _ _ _ i (by simpa [serve_length] using h),
    serve_getD _ _ _ i (by simpa [serve_length] using h),
    serve_getD _ _ _ i h]
  rw [ite_update_water, ite_update_elec, ite_update_home]
  simp [servedPop]

theorem leaverDecision_eq (p : Pop) (r : RandSt) :
    leaverDecision p r = (leavesSpec p r.uniform r.u, skipU r (drawsNeeded p)) := by
  cases hh : p.has_home <;> cases he : p.electricity_received <;>
    cases hw : p.water_received <;>
      simp [leaverDecision, leavesSpec, drawsNeeded, nextU, skipU, hh, he, hw,
        Nat.add_assoc]

theorem filterLeavers_fst (ps : List Pop) (r : RandSt) :
    (filterLeavers ps r).1 = staySpec ps r.uniform r.u := by
  induction ps generalizing r with
  | nil => simp [filterLeavers, staySpec]
  | cons p ps ih =>
    simp only [filterLeavers, staySpec, leaverDecision_eq]
    rw [ih (skipU r (drawsNeeded p))]
    simp [skipU]

theorem staySpec_sublist (ps : List Pop) (f : ℕ → ℚ) (u : ℕ) :
    List.Sublist (staySpec ps f u) ps := by
  induction ps generalizing u with
  | nil => simp [staySpec]
  | cons p ps ih =>
    simp only [staySpec]
    split_ifs
    · exact (ih _).cons p
    · exact (ih _).cons₂ p

theorem newPops_length (n : ℕ) (r : RandSt) : (newPops n r).1.length = n := by
  induction n generalizing r with
  | zero => simp [newPops]
  | succ n ih => simp [newPops, newPop, nextInt, ih]

theorem addNewcomers_population (c : City) (n : ℕ) (r : RandSt) :
    (addNewcomers c n r).1.population = c.population ++ (newPops n r).1 := rfl

/-! ### Claim theorems -/

/-- C6: for every integer `n ≥ 0`, each of the three facility mutators adds
exactly `n` to its counter (no upper bound) and changes nothing else; for
`n < 0` each raises the `ValueError("No Negative Numbers")` error and the
state is unchanged (the caller keeps the old `City`); the error is raised
iff `n < 0`. -/
theorem C6_facility_mutators (c : City) (n : ℤ) :
    (0 ≤ n →
      add_water_facilities c n
          = .ok { c with water_facilities := c.water_facilities + n.toNat } ∧
      add_electricity_facilities c n
          = .ok { c with
              electricity_facilities := c.electricity_facilities + n.toNat } ∧
      add_housing_units c n
          = .ok { c with housing_units := c.housing_units + n.toNat } ∧
      ((c.water_facilities + n.toNat : ℕ) : ℤ) = (c.water_facilities : ℤ) + n) ∧
    (n < 0 →
      add_water_facilities c n = .error "No Negative Numbers" ∧
      add_electricity_facilities c n = .error "No Negative Numbers" ∧
      add_housing_units c n = .error "No Negative Numbers") := by
  constructor
  · intro h
    refine ⟨?_, ?_, ?_, ?_⟩
    · simp [add_water_facilities, not_lt.mpr h]
    · simp [add_electricity_facilities, not_lt.mpr h]
    · simp [add_housing_units, not_lt.mpr h]
    · omega
  · intro h
    exact ⟨by simp [add_water_facilities, h], by simp [add_electricity_facilities, h],
      by simp [add_housing_units, h]⟩

/-- Witness for C6 at a concrete settlement: `n = 3` succeeds and adds 3,
`n = -1` errors. -/
theorem C6_facility_mutators_witness :
    (0 ≤ (3 : ℤ) ∧
      add_water_facilities city0 3
        = .ok { city0 with water_facilities := city0.water_facilities + (3 : ℤ).toNat }) ∧
    ((-1 : ℤ) < 0 ∧
      add_water_facilities city0 (-1) = .error "No Negative Numbers") :=
  ⟨⟨by decide, ((C6_facility_mutators city0 3).1 (by decide)).1⟩,
   ⟨by decide, ((C6_facility_mutators city0 (-1)).2 (by decide)).1⟩⟩

/-- C7: `update_happiness` stores the exact mean of the citizens' happiness
for a non-empty population and exactly `0` for the empty one (a guard, not
a division fault), and `get_average_happiness` only returns the stored
value without recomputing. -/
theorem C7_happiness_aggregator (pops : List Pop) (t : HappinessTracker) :
    (pops ≠ [] →
      get_average_happiness (update_happiness pops)
          = ((pops.map (fun p => (p.overall_happiness : ℚ))).sum) / pops.length ∧
      get_average_happiness (update_happiness pops) * (pops.length : ℚ)
          = (pops.map (fun p => (p.overall_happiness : ℚ))).sum) ∧
    (pops = [] → get_average_happiness (update_happiness pops) = 0) ∧
    get_average_happiness t = t.average_happiness := by
  refine ⟨?_, ?_, rfl⟩
  · intro h
    have hne : pops.isEmpty = false := by
      simpa [List.isEmpty_iff] using h
    have hlen : (pops.length : ℚ) ≠ 0 := by
      have : pops.length ≠ 0 := by
        simpa [List.length_eq_zero] using h
      exact_mod_cast this
    constructor
    · simp [update_happiness, get_average_happiness, hne]
    · simp only [update_happiness, get_average_happiness, hne, Bool.false_eq_true,
        if_false]
      field_simp
  · intro h
    simp [update_happiness, get_average_happiness, h]

/-- Witness for C7 at a one-citizen population and the empty one. -/
theorem C7_happiness_aggregator_witness :
    (([popH10] : List Pop) ≠ [] ∧
      get_average_happiness (update_happiness [popH10])
        = (([popH10].map (fun p => (p.overall_happiness : ℚ))).sum) / ([popH10] : List Pop).length) ∧
    (get_average_happiness (update_happiness ([] : List Pop)) = 0) :=
  ⟨⟨by simp, ((C7_happiness_aggregator [popH10] ⟨0⟩).1 (by simp)).1⟩,
   (C7_happiness_aggregator ([] : List Pop) ⟨0⟩).2.1 rfl⟩

/-- C8: the cumulative variant (`city.py`) and the reset variant
(`population.py`) of `Pop.adjust_happiness` agree (entire result, random
state included) whenever the pre-call happiness is 0, and their post-call
happiness values differ for every non-zero pre-call happiness, given the
same needs-state and the same draws. -/
theorem C8_variant_divergence (p : Pop) (r : RandSt) :
    (p.overall_happiness = 0 →
      adjust_happiness_city p r = adjust_happiness_population p r) ∧
    (p.overall_happiness ≠ 0 →
      (adjust_happiness_city p r).1.overall_happiness
        ≠ (adjust_happiness_population p r).1.overall_happiness) := by
  constructor
  · intro h0
    simp [adjust_happiness_city, adjust_happiness_population, h0]
  · intro hne
    rw [adjust_city_happiness, adjust_population_happiness]
    omega

/-- Witness for C8: agreement at zero prior happiness, divergence at a
prior happiness of 10. -/
theorem C8_variant_divergence_witness :
    (pop0.overall_happiness = 0 ∧
      adjust_happiness_city pop0 (constRand (mkRat 1 2))
        = adjust_happiness_population pop0 (constRand (mkRat 1 2))) ∧
    (popH10.overall_happiness ≠ 0 ∧
      (adjust_happiness_city popH10 (constRand (mkRat 1 2))).1.overall_happiness
        ≠ (adjust_happiness_population popH10 (constRand (mkRat 1 2))).1.overall_happiness) :=
  ⟨⟨rfl, (C8_variant_divergence pop0 (constRand (mkRat 1 2))).1 rfl⟩,
   ⟨by decide, (C8_variant_divergence popH10 (constRand (mkRat 1 2))).2 (by decide)⟩⟩

/-- C1: the code evaluated at the failing input. The claim (and the spec's
intended design) says `recomputeHappiness` resets happiness to 0 before
applying the weights, so a citizen with prior happiness 10, all needs
unmet and a sickness draw of 1/2 must end at -40 (the weight-table value
of the all-unmet needs-state); the `city.py` variant used by
`City.on_advance_day` instead accumulates and ends at 10 - 40 = -30,
while the `population.py` variant ends at -40 as specified. -/
theorem C1_reset_claim_fails_on_city_variant :
    (adjust_happiness_city popH10 (constRand (mkRat 1 2))).1.overall_happiness
        = -30 ∧
    (adjust_happiness_population popH10 (constRand (mkRat 1 2))).1.overall_happiness
        = -40 := by
  constructor <;> decide

/-- C2 counterexample: with stored average happiness 25 and draws for which
the top tier's 20% roll fails (draw 1/2) and the next tier's 10% roll
succeeds (draw 1/20), `roll_for_newcomers` adds 10 newcomers — refuting
"the number added is either 20 or 0, never 10 or 1". -/
theorem C2_tier_fallthrough_counterexample :
    get_average_happiness city25.happiness_tracker = 25 ∧
    (roll_for_newcomers city25 randFallthrough).1.population.length = 10 := by
  constructor
  · rfl
  · decide

/-- C2 as amended: the tiers are evaluated high-to-low and at most one
fires per day (never cumulatively), but a failed roll at a higher tier
falls through to the next tier's combined threshold-and-roll check; with
average happiness 25 the newcomers added number 20 if the first draw is
below 0.2, else 10 if the second draw is below 0.1, else 1 if the third
draw is below 0.05, else 0 — and the original citizens are kept as a
prefix in order. -/
theorem C2_newcomer_tiers_amended (c : City) (r : RandSt)
    (h : get_average_happiness c.happiness_tracker = 25) :
    (roll_for_newcomers c r).1.population.length
        = c.population.length
            + (if r.uniform r.u < mkRat 20 100 then 20
               else if r.uniform (r.u + 1) < mkRat 10 100 then 10
               else if r.uniform (r.u + 2) < mkRat 5 100 then 1 else 0) ∧
    (roll_for_newcomers c r).1.population.take c.population.length
        = c.population := by
  have h20 : (20 : ℚ) ≤ get_average_happiness c.happiness_tracker := by
    rw [h]; norm_num
  have h10 : (10 : ℚ) < get_average_happiness c.happiness_tracker := by
    rw [h]; norm_num
  have h0 : (0 : ℚ) < get_average_happiness c.happiness_tracker := by
    rw [h]; norm_num
  simp only [roll_for_newcomers, if_pos h20, if_pos h10, if_pos h0, nextU]
  split_ifs <;>
    simp_all [addNewcomers_population, newPops_length, List.take_left,
      skipU, Nat.add_assoc]

/-- Witness for C2's amended theorem at the concrete fall-through input:
average 25, first draw 1/2, later draws 1/20, giving 10 newcomers. -/
theorem C2_newcomer_tiers_amended_witness :
    get_average_happiness city25.happiness_tracker = 25 ∧
    (roll_for_newcomers city25 randFallthrough).1.population.length
        = city25.population.length
            + (if randFallthrough.uniform 0 < mkRat 20 100 then 20
               else if randFallthrough.uniform 1 < mkRat 10 100 then 10
               else if randFallthrough.uniform 2 < mkRat 5 100 then 1 else 0) :=
  ⟨rfl, (C2_newcomer_tiers_amended city25 randFallthrough rfl).1⟩

/-- C4: the leaver rule removes nobody when the (stored) average happiness
is ≥ 0, for every population and all draws; when it is < 0 the population
is replaced by exactly the stay-set: each citizen, independently and in
order, leaves iff at least one of its per-missing-need 50% draws succeeds
(one draw per unmet need among home, electricity, water), survivors keep
their original order, and nothing else of the settlement changes. -/
theorem C4_leaver_rule (c : City) (r : RandSt) :
    (0 ≤ get_average_happiness c.happiness_tracker →
      roll_for_leavers c r = (c, r)) ∧
    (get_average_happiness c.happiness_tracker < 0 →
      (roll_for_leavers c r).1.population
          = staySpec c.population r.uniform r.u ∧
      List.Sublist (roll_for_leavers c r).1.population c.population ∧
      (roll_for_leavers c r).1.happiness_tracker = c.happiness_tracker ∧
      (roll_for_leavers c r).1.water_facilities = c.water_facilities ∧
      (roll_for_leavers c r).1.electricity_facilities
          = c.electricity_facilities ∧
      (roll_for_leavers c r).1.housing_units = c.housing_units) := by
  constructor
  · intro h
    simp [roll_for_leavers, not_lt.mpr h]
  · intro h
    have hpop : (roll_for_leavers c r).1.population
        = staySpec c.population r.uniform r.u := by
      simp [roll_for_leavers, h, filterLeavers_fst]
    refine ⟨hpop, ?_, ?_, ?_, ?_, ?_⟩
    · rw [hpop]; exact staySpec_sublist _ _ _
    all_goals simp [roll_for_leavers, h]

/-- Witness for C4: at a stored average of -1 with one all-needs-unmet
citizen and draws of 1/2 (not below 1/2, so no leave), the citizen stays;
and at a stored average of 0 nothing happens at all. -/
theorem C4_leaver_rule_witness :
    (get_average_happiness cityNeg.happiness_tracker < 0 ∧
      (roll_for_leavers cityNeg (constRand (mkRat 1 2))).1.population
        = staySpec cityNeg.population (constRand (mkRat 1 2)).uniform 0) ∧
    (0 ≤ get_average_happiness city0.happiness_tracker ∧
      roll_for_leavers city0 (constRand (mkRat 1 2))
        = (city0, constRand (mkRat 1 2))) :=
  ⟨⟨by norm_num [cityNeg, get_average_happiness],
    ((C4_leaver_rule cityNeg (constRand (mkRat 1 2))).2
      (by norm_num [cityNeg, get_average_happiness])).1⟩,
   ⟨by norm_num [city0, get_average_happiness],
    (C4_leaver_rule city0 (constRand (mkRat 1 2))).1
      (by norm_num [city0, get_average_happiness])⟩⟩

/-- C5: `Sim.advance_day` is exactly newcomer intake, then leaver
attrition, then the settlement's daily pass, then the disaster roll, in
that order and nothing else; when the disaster's 1% draw succeeds, every
citizen then present has its happiness reduced by exactly 50 and nothing
else changes — the day's last mutation, applied after all happiness
recomputation; when the draw fails the pre-disaster state is final. -/
theorem C5_day_order (c : City) (r : RandSt) :
    advance_day c r
        = roll_disasters (preDisaster c r).1 (preDisaster c r).2 ∧
    ((preDisaster c r).2.uniform (preDisaster c r).2.u < mkRat 1 100 →
      (advance_day c r).1.population
          = (preDisaster c r).1.population.map
              (fun p => { p with
                overall_happiness := p.overall_happiness - 50 }) ∧
      (advance_day c r).1.happiness_tracker
          = (preDisaster c r).1.happiness_tracker ∧
      (advance_day c r).1.water_facilities
          = (preDisaster c r).1.water_facilities ∧
      (advance_day c r).1.electricity_facilities
          = (preDisaster c r).1.electricity_facilities ∧
      (advance_day c r).1.housing_units
          = (preDisaster c r).1.housing_units) ∧
    (¬ (preDisaster c r).2.uniform (preDisaster c r).2.u < mkRat 1 100 →
      (advance_day c r).1 = (preDisaster c r).1) := by
  have horder : advance_day c r
      = roll_disasters (preDisaster c r).1 (preDisaster c r).2 := rfl
  refine ⟨horder, ?_, ?_⟩
  · intro h
    rw [horder]
    simp [roll_disasters, nextU, h]
  · intro h
    rw [horder]
    simp [roll_disasters, nextU, h]

/-- Witness for C5 on the empty settlement: with constant draws 1/2 the
disaster fails and the pre-disaster state is final; with constant draws 0
the disaster fires and maps the (empty) population. -/
theorem C5_day_order_witness :
    (¬ (preDisaster city0 (constRand (mkRat 1 2))).2.uniform
          (preDisaster city0 (constRand (mkRat 1 2))).2.u < mkRat 1 100 ∧
      (advance_day city0 (constRand (mkRat 1 2))).1
        = (preDisaster city0 (constRand (mkRat 1 2))).1) ∧
    ((preDisaster city0 (constRand 0)).2.uniform
          (preDisaster city0 (constRand 0)).2.u < mkRat 1 100 ∧
      (advance_day city0 (constRand 0)).1.population
        = (preDisaster city0 (constRand 0)).1.population.map
            (fun p => { p with
              overall_happiness := p.overall_happiness - 50 })) :=
  ⟨⟨by decide, (C5_day_order city0 (constRand (mkRat 1 2))).2.2 (by decide)⟩,
   ⟨by decide, ((C5_day_order city0 (constRand 0)).2.1 (by decide)).1⟩⟩

theorem roll_disasters_getD_sick (c : City) (r : RandSt) (i : ℕ)
    (h : i < c.population.length) :
    ((roll_disasters c r).1.population.getD i pop0).sick
      = (c.population.getD i pop0).sick := by
  simp only [roll_disasters, nextU]
  split_ifs
  · rw [List.getD_eq_getElem _ _ (by simpa using h),
      List.getD_eq_getElem _ _ h]
    simp
  · rfl

/-- C10: sickness is permanent in the core — the two `adjust_happiness`
variants compute `sick' = sick ∨ (draw < 0.01)` (never back to `false`),
the daily pass keeps a sick citizen sick, the disaster roll never touches
`sick`, and the leaver rule only removes citizens (survivors are an
unchanged subsequence); moreover the extra -15 penalty is applied exactly
when the draw succeeds (visible in the happiness equations), not on every
day the citizen is already sick. -/
theorem C10_sickness_permanent (p : Pop) (r : RandSt) (c : City) (i : ℕ)
    (h : i < c.population.length) :
    (adjust_happiness_city p r).1.sick
        = (p.sick || decide (r.uniform r.u < mkRat 1 100)) ∧
    (adjust_happiness_population p r).1.sick
        = (p.sick || decide (r.uniform r.u < mkRat 1 100)) ∧
    (adjust_happiness_city p r).1.overall_happiness
        = p.overall_happiness + needsWeight p
            - (if r.uniform r.u < mkRat 1 100 then 15 else 0) ∧
    (adjust_happiness_population p r).1.overall_happiness
        = needsWeight p - (if r.uniform r.u < mkRat 1 100 then 15 else 0) ∧
    ((c.population.getD i pop0).sick = true →
      ((on_advance_day c r).1.population.getD i pop0).sick = true) ∧
    ((roll_disasters c r).1.population.getD i pop0).sick
        = (c.population.getD i pop0).sick ∧
    List.Sublist (roll_for_leavers c r).1.population c.population := by
  refine ⟨adjust_city_sick p r, adjust_population_sick p r,
    adjust_city_happiness p r, adjust_population_happiness p r, ?_, ?_, ?_⟩
  · intro hs
    rw [on_advance_day_getD c r i h, adjust_city_sick]
    have : (servedPop c i).sick = true := by
      simpa [servedPop] using hs
    simp [this]
  · exact roll_disasters_getD_sick c r i h
  · by_cases havg : get_average_happiness c.happiness_tracker < 0
    · simp only [roll_for_leavers, if_pos havg, filterLeavers_fst]
      exact staySpec_sublist _ _ _
    · simp [roll_for_leavers, havg]

/-- Witness for C10: a sick citizen stays sick through a daily pass at a
concrete settlement. -/
theorem C10_sickness_permanent_witness :
    (0 < cityNeg.population.length) ∧
    (adjust_happiness_city pop0 (constRand (mkRat 1 2))).1.sick
        = (pop0.sick || decide ((mkRat 1 2) < mkRat 1 100)) :=
  ⟨by decide, (C10_sickness_permanent pop0 (constRand (mkRat 1 2)) cityNeg 0
      (by decide)).1⟩

theorem dayStep_length (s : City × RandSt) :
    (dayStep s).1.population.length = s.1.population.length :=
  on_advance_day_length s.1 s.2

theorem dayStep_flag_mono (s : City × RandSt) (i : ℕ)
    (h : i < s.1.population.length) :
    ((s.1.population.getD i pop0).water_received = true →
      ((dayStep s).1.population.getD i pop0).water_received = true) ∧
    ((s.1.population.getD i pop0).electricity_received = true →
      ((dayStep s).1.population.getD i pop0).electricity_received = true) ∧
    ((s.1.population.getD i pop0).has_home = true →
      ((dayStep s).1.population.getD i pop0).has_home = true) := by
  unfold dayStep
  rw [on_advance_day_getD s.1 s.2 i h]
  obtain ⟨hw, he, hh⟩ := adjust_city_flags (servedPop s.1 i) (skipU s.2 i)
  rw [hw, he, hh]
  refine ⟨?_, ?_, ?_⟩ <;> intro hb <;>
    rw [List.getD_eq_getElem _ _ h] at hb <;>
    simp [servedPop, List.getElem?_eq_getElem h, hb]

/-- C9: `City.on_advance_day` only ever turns the three served flags from
`false` to `true`, never back: over any number of iterated days the flag of
the citizen at a fixed index is monotone — once served, it stays served,
whatever its index relative to the capacities on later days. -/
theorem C9_served_flags_monotone (s : City × RandSt) (n i : ℕ)
    (h : i < s.1.population.length) :
    i < ((dayStep^[n]) s).1.population.length ∧
    ((s.1.population.getD i pop0).water_received = true →
      (((dayStep^[n]) s).1.population.getD i pop0).water_received = true) ∧
    ((s.1.population.getD i pop0).electricity_received = true →
      (((dayStep^[n]) s).1.population.getD i pop0).electricity_received
        = true) ∧
    ((s.1.population.getD i pop0).has_home = true →
      (((dayStep^[n]) s).1.population.getD i pop0).has_home = true) := by
  induction n generalizing s with
  | zero => exact ⟨h, fun hb => hb, fun hb => hb, fun hb => hb⟩
  | succ n ih =>
    rw [Function.iterate_succ_apply]
    have hstep := dayStep_flag_mono s i h
    have hlen : i < (dayStep s).1.population.length := by
      rw [dayStep_length]; exact h
    obtain ⟨hl, hw, he, hh⟩ := ih (dayStep s) hlen
    exact ⟨hl, fun hb => hw (hstep.1 hb), fun hb => he (hstep.2.1 hb),
      fun hb => hh (hstep.2.2 hb)⟩

/-- Witness for C9: the already-watered citizen of `city41` still reads as
watered after two iterated days. -/
theorem C9_served_flags_monotone_witness :
    (40 < (city41, constRand (mkRat 1 2)).1.population.length) ∧
    (((city41, constRand (mkRat 1 2)).1.population.getD 40 pop0).water_received
        = true) ∧
    (((dayStep^[2]) (city41, constRand (mkRat 1 2))).1.population.getD 40
        pop0).water_received = true := by
  refine ⟨by decide, by decide, ?_⟩
  exact (C9_served_flags_monotone (city41, constRand (mkRat 1 2)) 2 40
    (by decide)).2.1 (by decide)

theorem getD_replicate_pop0 (n i : ℕ) :
    (List.replicate n pop0).getD i pop0 = pop0 := by
  induction n generalizing i with
  | zero => simp
  | succ n ih =>
    cases i with
    | zero => simp [List.replicate]
    | succ i => simp [List.replicate, ih i]

/-- C3 counterexample: the claim's unconditional "hasWater iff
`i < waterCapacity`" fails, because the pass never clears a flag: in
`city41` the citizen at index 40 already has water, the water capacity is
`2 * 20 = 40`, and after `on_advance_day` it still has water although
`40 < 40` is false. -/
theorem C3_index_iff_counterexample :
    ((on_advance_day city41 (constRand (mkRat 1 2))).1.population.getD 40
        pop0).water_received = true ∧
    ¬ (40 < city41.water_facilities * 20) := by
  constructor <;> decide

/-- C3 as amended: `on_advance_day` rations by stored index but only turns
flags on — after the pass, citizen `i` has water iff `i < waterCapacity`
or it already had water (likewise electricity and housing) — and its
happiness moves by the weight-table value of its post-rationing
needs-state, minus 15 exactly when its sickness draw succeeds.  The §8
end-to-end scenario holds as stated: in `city50` (2 water, 2 electricity,
30 housing, 50 fresh citizens, all needs unmet, zero happiness) exactly
the first 40 citizens get water, the first 40 electricity, the first 30
homes, and each citizen's happiness is the weight-table value of its
resulting needs-state (its prior happiness being 0). -/
theorem C3_rationing_amended (c : City) (r : RandSt) (i : ℕ)
    (h : i < c.population.length) :
    (on_advance_day c r).1.population.length = c.population.length ∧
    ((on_advance_day c r).1.population.getD i pop0).water_received
        = (decide (i < c.water_facilities * 20)
            || (c.population.getD i pop0).water_received) ∧
    ((on_advance_day c r).1.population.getD i pop0).electricity_received
        = (decide (i < c.electricity_facilities * 20)
            || (c.population.getD i pop0).electricity_received) ∧
    ((on_advance_day c r).1.population.getD i pop0).has_home
        = (decide (i < c.housing_units)
            || (c.population.getD i pop0).has_home) ∧
    ((on_advance_day c r).1.population.getD i pop0).overall_happiness
        = (c.population.getD i pop0).overall_happiness
            + needsWeight (servedPop c i)
            - (if r.uniform (r.u + i) < mkRat 1 100 then 15 else 0) ∧
    (i < 50 →
      ((on_advance_day city50 r).1.population.getD i pop0).water_received
          = decide (i < 40) ∧
      ((on_advance_day city50 r).1.population.getD i pop0).electricity_received
          = decide (i < 40) ∧
      ((on_advance_day city50 r).1.population.getD i pop0).has_home
          = decide (i < 30) ∧
      ((on_advance_day city50 r).1.population.getD i pop0).overall_happiness
          = (if i < 40 then (10 : ℤ) else -10)
              + (if i < 40 then (10 : ℤ) else -10)
              + (if i < 30 then (10 : ℤ) else -10) - 5 - 5
              - (if r.uniform (r.u + i) < mkRat 1 100 then 15 else 0)) := by
  obtain ⟨hw, he, hh⟩ := adjust_city_flags (servedPop c i) (skipU r i)
  refine ⟨on_advance_day_length c r, ?_, ?_, ?_, ?_, ?_⟩
  · rw [on_advance_day_getD c r i h, hw]; simp [servedPop]
  · rw [on_advance_day_getD c r i h, he]; simp [servedPop]
  · rw [on_advance_day_getD c r i h, hh]; simp [servedPop]
  · rw [on_advance_day_getD c r i h, adjust_city_happiness]
    simp [servedPop, skipU]
  · intro h50
    have h50' : i < city50.population.length := by
      rw [show city50.population = List.replicate 50 pop0 from rfl,
        List.length_replicate]
      exact h50
    obtain ⟨hw5, he5, hh5⟩ :=
      adjust_city_flags (servedPop city50 i) (skipU r i)
    have hserved : servedPop city50 i
        = { pop0 with
            water_received := decide (i < 40),
            electricity_received := decide (i < 40),
            has_home := decide (i < 30) } := by
      have hgetD : city50.population.getD i pop0 = pop0 :=
        getD_replicate_pop0 50 i
      have hwf : city50.water_facilities = 2 := rfl
      have hef : city50.electricity_facilities = 2 := rfl
      have hhu : city50.housing_units = 30 := rfl
      simp only [servedPop]
      rw [hgetD, hwf, hef, hhu]
      simp [pop0]
    refine ⟨?_, ?_, ?_, ?_⟩
    · rw [on_advance_day_getD city50 r i h50', hw5, hserved]
    · rw [on_advance_day_getD city50 r i h50', he5, hserved]
    · rw [on_advance_day_getD city50 r i h50', hh5, hserved]
    · rw [on_advance_day_getD city50 r i h50', adjust_city_happiness,
        hserved]
      simp only [needsWeight, pop0, skipU, decide_eq_true_eq]
      split_ifs <;> simp_all

/-- Witness for C3's amended theorem at index 40 of the §8 scenario: the
41st citizen is exactly at the water capacity boundary and gets no water. -/
theorem C3_rationing_amended_witness :
    (40 < city50.population.length ∧ 40 < 50) ∧
    ((on_advance_day city50 (constRand (mkRat 1 2))).1.population.getD 40
        pop0).water_received = decide (40 < 40) :=
  ⟨⟨by decide, by decide⟩,
   ((C3_rationing_amended city50 (constRand (mkRat 1 2)) 40
      (by decide)).2.2.2.2.2 (by decide)).1⟩
